import Mathlib

/-!
Shallow embedding of `research_pipeline.py`: the data model, the two source
connectors (`search_plos`, `search_arxiv`), the content-processing stages
(`summarize_text`, `generate_audio`, `generate_video`) and the orchestrator
(`process_query`).  External effects (HTTP transport, the summarization
model, text-to-speech, video encoding, the wall clock, directory creation)
are modelled as oracles gathered in a `World`; every raise point of the
Python code is represented by an explicit failure value of the oracle.
-/

namespace ResearchPipeline

/-- Paper dataclass: title, abstract, source. -/
structure Paper where
  title : String
  abstract : String
  source : String
deriving DecidableEq

/-- One record of the PLOS response's docs array, with the two shapes the
code distinguishes: the optional title field may hold a string or a list of
strings (the code's isinstance check), the optional abstract field a string. -/
structure PlosArticle where
  title : Option (String ⊕ List String)
  abstract : Option String
deriving DecidableEq

/-- Outcome of one HTTP request plus body parse: `failure` models any raised
transport or parse exception (requests.get, raise_for_status, json/XML
parsing), `success` a parsed body. -/
inductive HttpOutcome (α : Type) where
  | failure (msg : String)
  | success (body : α)
deriving DecidableEq

/-- Title extraction for a PLOS record: `article.get("title", "No title
available")`, then Python's `title[0]` when the field holds a list.  An
empty list raises IndexError there, modelled as `none` (the exception
propagates to the catch-all of `search_plos`). -/
def plosTitle (a : PlosArticle) : Option String :=
  match a.title.getD (Sum.inl "No title available") with
  | Sum.inl s => some s
  | Sum.inr l => l.head?

/-- One iteration of the PLOS result loop: builds a `Paper` with source
"plos", substituting the abstract placeholder on a missing field. -/
def plosPaper (a : PlosArticle) : Option Paper := do
  let t ← plosTitle a
  pure { title := t, abstract := a.abstract.getD "No abstract available", source := "plos" }

/-- The PLOS result loop: a raise at any record aborts the whole loop and
falls to the catch-all, discarding earlier results. -/
def plosPapers : List PlosArticle → Option (List Paper)
  | [] => some []
  | a :: rest => do
    let p ← plosPaper a
    let ps ← plosPapers rest
    pure (p :: ps)

/-- ResearchScraper.search_plos: any transport or parse failure is caught
and converted to `none`; otherwise the parsed records become Papers. -/
def search_plos : HttpOutcome (List PlosArticle) → Option (List Paper)
  | .failure _ => none
  | .success articles => plosPapers articles

/-- One Atom entry of the arXiv feed as the code reads it: the text content
of its title and summary elements.  `none` models a missing element or
missing text, where Python's `.text.strip()` raises AttributeError. -/
structure ArxivEntry where
  titleText : Option String
  summaryText : Option String
deriving DecidableEq

/-- Python's str.strip(): drop leading and trailing whitespace. -/
def pyStrip (s : String) : String :=
  ((s.data.dropWhile Char.isWhitespace).reverse.dropWhile Char.isWhitespace).reverse.asString

/-- One iteration of the arXiv entry loop: strips both texts and builds a
`Paper` with source "arxiv"; a missing element or text raises, modelled as
`none`. -/
def arxivPaper (e : ArxivEntry) : Option Paper := do
  let t ← e.titleText
  let a ← e.summaryText
  pure { title := pyStrip t, abstract := pyStrip a, source := "arxiv" }

/-- The arXiv entry loop: a raise at any entry aborts the whole loop and
falls to the catch-all. -/
def arxivPapers : List ArxivEntry → Option (List Paper)
  | [] => some []
  | e :: rest => do
    let p ← arxivPaper e
    let ps ← arxivPapers rest
    pure (p :: ps)

/-- ResearchScraper.search_arxiv: any transport or parse failure is caught
and converted to `none`. -/
def search_arxiv : HttpOutcome (List ArxivEntry) → Option (List Paper)
  | .failure _ => none
  | .success entries => arxivPapers entries

/-- The external effects one `process_query` run can observe.  `plos` and
`arxiv` give the HTTP outcome for a query; `summarizer` the BART call's
result (`none` = raised); `audioOk`/`videoOk` whether the gTTS save and the
moviepy render succeed on the given arguments; `clock` the value of
`int(time.time())` at the i-th loop iteration; `mkdirOk` whether the
os.makedirs calls succeed. -/
structure World where
  plos : String → HttpOutcome (List PlosArticle)
  arxiv : String → HttpOutcome (List ArxivEntry)
  summarizer : String → Option String
  audioOk : String → String → Bool
  videoOk : String → String → String → Bool
  clock : Nat → Nat
  mkdirOk : Bool
  mkdirErr : String

/-- ContentProcessor.summarize_text: returns the model's summary text, or
the empty string when the call raises. -/
def summarize_text (w : World) (text : String) : String :=
  match w.summarizer text with
  | some s => s
  | none => ""

/-- ContentProcessor.generate_audio: returns output_path on success, the
empty string when gTTS raises. -/
def generate_audio (w : World) (text output_path : String) : String :=
  if w.audioOk text output_path then output_path else ""

/-- ContentProcessor.generate_video: returns output_path on success, the
empty string when moviepy raises. -/
def generate_video (w : World) (text audio_path output_path : String) : String :=
  if w.videoOk text audio_path output_path then output_path else ""

/-- One entry of processed_papers. -/
structure ProcessedPaper where
  title : String
  source : String
  summary : String
  audio_path : String
  video_path : String
deriving DecidableEq

/-- The dictionary `process_query` returns: the success form with
total_papers and processed_papers, or the error form of the top-level
catch. -/
inductive Report where
  | ok (total_papers : Nat) (processed_papers : List ProcessedPaper)
  | error (msg : String)
deriving DecidableEq

/-- Combined text handed to the summarizer: title, blank line, abstract. -/
def fullText (p : Paper) : String :=
  p.title ++ "\n\n" ++ p.abstract

/-- Derived audio artifact path for a paper and a captured timestamp. -/
def audioPathFor (p : Paper) (timestamp : Nat) : String :=
  "output/audio/" ++ p.source ++ "_" ++ Nat.repr timestamp ++ ".mp3"

/-- Derived video artifact path for a paper and a captured timestamp. -/
def videoPathFor (p : Paper) (timestamp : Nat) : String :=
  "output/video/" ++ p.source ++ "_" ++ Nat.repr timestamp ++ ".mp4"

/-- Body of the per-paper loop of `process_query`, at loop index `i`:
summarize the combined text, capture one timestamp, derive both artifact
paths from it, render audio to the derived audio path, render video from
the summary and the derived audio path (note: the derived path, not the
audio stage's result), and record the outcome. -/
def processPaper (w : World) (i : Nat) (paper : Paper) : ProcessedPaper :=
  let summary := summarize_text w (fullText paper)
  let timestamp := w.clock i
  let audio_path := audioPathFor paper timestamp
  let audio_file := generate_audio w summary audio_path
  let video_path := videoPathFor paper timestamp
  let video_file := generate_video w summary audio_path video_path
  { title := paper.title, source := paper.source, summary := summary,
    audio_path := audio_file, video_path := video_file }

/-- The per-paper loop of `process_query`, starting at loop index `i`. -/
def processFrom (w : World) : Nat → List Paper → List ProcessedPaper
  | _, [] => []
  | i, paper :: rest => processPaper w i paper :: processFrom w (i + 1) rest

/-- all_papers: `search_plos(query) or []` concatenated with
`search_arxiv(query) or []`, PLOS first. -/
def mergedPapers (w : World) (query : String) : List Paper :=
  (search_plos (w.plos query)).getD [] ++ (search_arxiv (w.arxiv query)).getD []

/-- ResearchPipeline.process_query: directory setup, both searches, merge,
the per-paper loop, and the report.  The only statement inside the
top-level try whose exceptions are not already swallowed further down is
the directory setup, so its failure is the one route to the error form. -/
def process_query (w : World) (query : String) : Report :=
  if w.mkdirOk then
    let all_papers := mergedPapers w query
    Report.ok all_papers.length (processFrom w 0 all_papers)
  else
    Report.error w.mkdirErr

/-! Helper lemmas on the loops. -/

theorem processFrom_length (w : World) (i : Nat) (l : List Paper) :
    (processFrom w i l).length = l.length := by
  induction l generalizing i with
  | nil => rfl
  | cons p rest ih => simp [processFrom, ih]

theorem processFrom_get (w : World) (i : Nat) (l : List Paper) (k : Nat)
    (hk : k < l.length) (hk2 : k < (processFrom w i l).length) :
    (processFrom w i l).get ⟨k, hk2⟩ = processPaper w (i + k) (l.get ⟨k, hk⟩) := by
  induction l generalizing i k with
  | nil => exact absurd hk (by simp)
  | cons p rest ih =>
    cases k with
    | zero => rfl
    | succ k =>
      have hr : k < rest.length := by simpa using hk
      have hr2 : k < (processFrom w (i + 1) rest).length := by
        rw [processFrom_length]; exact hr
      have := ih (i + 1) k hr hr2
      simpa [processFrom, Nat.add_assoc, Nat.add_comm 1 k] using this

theorem plosPapers_length (l : List PlosArticle) (ps : List Paper)
    (h : plosPapers l = some ps) : ps.length = l.length := by
  induction l generalizing ps with
  | nil =>
    simp only [plosPapers, Option.some.injEq] at h
    subst h; rfl
  | cons a rest ih =>
    simp only [plosPapers, Option.bind_eq_bind, Option.pure_def,
      Option.bind_eq_some, Option.some.injEq] at h
    obtain ⟨p, _, ps', hrest, hps⟩ := h
    subst hps
    simp [ih ps' hrest]

theorem plosPapers_get (l : List PlosArticle) (ps : List Paper)
    (h : plosPapers l = some ps) (k : Nat) (hk : k < l.length) (hk2 : k < ps.length) :
    plosPaper (l.get ⟨k, hk⟩) = some (ps.get ⟨k, hk2⟩) := by
  induction l generalizing ps k with
  | nil => exact absurd hk (by simp)
  | cons a rest ih =>
    simp only [plosPapers, Option.bind_eq_bind, Option.pure_def,
      Option.bind_eq_some, Option.some.injEq] at h
    obtain ⟨p, hp, ps', hrest, hps⟩ := h
    subst hps
    cases k with
    | zero => simpa using hp
    | succ k =>
      have hr : k < rest.length := by simpa using hk
      have hr2 : k < ps'.length := by simpa using hk2
      simpa using ih ps' hrest k hr hr2

theorem plosPapers_none_of_mem (l : List PlosArticle) (a : PlosArticle)
    (ha : a ∈ l) (hfail : plosPaper a = none) : plosPapers l = none := by
  induction l with
  | nil => cases ha
  | cons b rest ih =>
    rcases List.mem_cons.mp ha with h | h
    · subst h; simp [plosPapers, hfail]
    · cases hb : plosPaper b with
      | none => simp [plosPapers, hb]
      | some p => simp [plosPapers, hb, ih h]

theorem arxivPapers_none_of_mem (l : List ArxivEntry) (e : ArxivEntry)
    (he : e ∈ l) (hfail : arxivPaper e = none) : arxivPapers l = none := by
  induction l with
  | nil => cases he
  | cons b rest ih =>
    rcases List.mem_cons.mp he with h | h
    · subst h; simp [arxivPapers, hfail]
    · cases hb : arxivPaper b with
      | none => simp [arxivPapers, hb]
      | some p => simp [arxivPapers, hb, ih h]

theorem plosPaper_source (a : PlosArticle) (p : Paper) (h : plosPaper a = some p) :
    p.source = "plos" := by
  simp only [plosPaper, plosTitle, Option.bind_eq_bind, Option.bind_eq_some,
    Option.pure_def, Option.some.injEq] at h
  obtain ⟨t, _, hp⟩ := h
  simp [← hp]

theorem arxivPaper_source (e : ArxivEntry) (p : Paper) (h : arxivPaper e = some p) :
    p.source = "arxiv" := by
  simp only [arxivPaper, Option.bind_eq_bind, Option.bind_eq_some,
    Option.pure_def, Option.some.injEq] at h
  obtain ⟨t, _, a, _, hp⟩ := h
  simp [← hp]

theorem plosPapers_source (l : List PlosArticle) (ps : List Paper)
    (h : plosPapers l = some ps) : ∀ p ∈ ps, p.source = "plos" := by
  induction l generalizing ps with
  | nil =>
    simp only [plosPapers, Option.some.injEq] at h
    subst h; simp
  | cons a rest ih =>
    simp only [plosPapers, Option.bind_eq_bind, Option.pure_def,
      Option.bind_eq_some, Option.some.injEq] at h
    obtain ⟨p, hp, ps', hrest, hps⟩ := h
    subst hps
    intro q hq
    rcases List.mem_cons.mp hq with h | h
    · subst h; exact plosPaper_source a q hp
    · exact ih ps' hrest q h

theorem arxivPapers_source (l : List ArxivEntry) (ps : List Paper)
    (h : arxivPapers l = some ps) : ∀ p ∈ ps, p.source = "arxiv" := by
  induction l generalizing ps with
  | nil =>
    simp only [arxivPapers, Option.some.injEq] at h
    subst h; simp
  | cons e rest ih =>
    simp only [arxivPapers, Option.bind_eq_bind, Option.pure_def,
      Option.bind_eq_some, Option.some.injEq] at h
    obtain ⟨p, hp, ps', hrest, hps⟩ := h
    subst hps
    intro q hq
    rcases List.mem_cons.mp hq with h | h
    · subst h; exact arxivPaper_source e q hp
    · exact ih ps' hrest q h

theorem mergedPapers_source (w : World) (q : String) :
    ∀ p ∈ mergedPapers w q, p.source = "plos" ∨ p.source = "arxiv" := by
  intro p hp
  rcases List.mem_append.mp hp with h | h
  · left
    cases ho : w.plos q with
    | failure m => rw [ho] at h; simp [search_plos] at h
    | success articles =>
      rw [ho] at h
      cases hs : plosPapers articles with
      | none => simp [search_plos, hs] at h
      | some ps =>
        simp only [search_plos, hs, Option.getD_some] at h
        exact plosPapers_source articles ps hs p h
  · right
    cases ho : w.arxiv q with
    | failure m => rw [ho] at h; simp [search_arxiv] at h
    | success entries =>
      rw [ho] at h
      cases hs : arxivPapers entries with
      | none => simp [search_arxiv, hs] at h
      | some ps =>
        simp only [search_arxiv, hs, Option.getD_some] at h
        exact arxivPapers_source entries ps hs p h

/-! Decimal rendering of timestamps.  `Nat.repr` (what the f-string does to
`int(time.time())`) is injective; proved via an explicit big-endian digit
list. -/

/-- Big-endian decimal digit characters of a natural number; this is what
`Nat.toDigits 10` computes once its fuel is unwound. -/
def decDigits (n : Nat) : List Char :=
  if h : n < 10 then [Nat.digitChar n]
  else decDigits (n / 10) ++ [Nat.digitChar (n % 10)]
termination_by n
decreasing_by exact Nat.div_lt_self (by omega) (by omega)

theorem decDigits_lt {n : Nat} (h : n < 10) : decDigits n = [Nat.digitChar n] := by
  rw [decDigits]; simp [h]

theorem decDigits_ge {n : Nat} (h : ¬ n < 10) :
    decDigits n = decDigits (n / 10) ++ [Nat.digitChar (n % 10)] := by
  rw [decDigits]; simp [h]

theorem decDigits_ne_nil (n : Nat) : decDigits n ≠ [] := by
  by_cases h : n < 10
  · rw [decDigits_lt h]; simp
  · rw [decDigits_ge h]; simp

theorem toDigitsCore_eq_decDigits :
    ∀ (fuel n : Nat) (ds : List Char), n < fuel →
      Nat.toDigitsCore 10 fuel n ds = decDigits n ++ ds := by
  intro fuel
  induction fuel with
  | zero => intro n ds h; omega
  | succ f ih =>
    intro n ds h
    rw [Nat.toDigitsCore]
    by_cases h10 : n / 10 = 0
    · have hn : n < 10 := by omega
      rw [if_pos h10, decDigits_lt hn, Nat.mod_eq_of_lt hn]
      rfl
    · have hn : ¬ n < 10 := by omega
      rw [if_neg h10, ih (n / 10) _ (by omega), decDigits_ge hn]
      simp

theorem digitChar_inj_lt : ∀ a < 10, ∀ b < 10, Nat.digitChar a = Nat.digitChar b → a = b := by
  decide

theorem decDigits_inj : ∀ m n : Nat, decDigits m = decDigits n → m = n := by
  intro m
  induction m using Nat.strong_induction_on with
  | _ m ih =>
    intro n h
    by_cases hm : m < 10 <;> by_cases hn : n < 10
    · rw [decDigits_lt hm, decDigits_lt hn] at h
      exact digitChar_inj_lt m hm n hn (List.cons.inj h).1
    · rw [decDigits_lt hm, decDigits_ge hn] at h
      have hlen := congrArg List.length h
      simp at hlen
      exact absurd hlen (decDigits_ne_nil _)
    · rw [decDigits_ge hm, decDigits_lt hn] at h
      have hlen := congrArg List.length h
      simp at hlen
      exact absurd hlen (decDigits_ne_nil _)
    · rw [decDigits_ge hm, decDigits_ge hn] at h
      obtain ⟨h1, h2⟩ := List.append_inj' h (by simp)
      have hdiv : m / 10 = n / 10 :=
        ih (m / 10) (Nat.div_lt_self (by omega) (by omega)) (n / 10) h1
      have hmod : m % 10 = n % 10 :=
        digitChar_inj_lt (m % 10) (Nat.mod_lt _ (by omega)) (n % 10)
          (Nat.mod_lt _ (by omega)) (List.cons.inj h2).1
      omega

theorem repr_eq_decDigits (n : Nat) : Nat.repr n = (decDigits n).asString := by
  show (Nat.toDigits 10 n).asString = _
  rw [Nat.toDigits, toDigitsCore_eq_decDigits (n + 1) n [] (Nat.lt_succ_self n),
    List.append_nil]

theorem natRepr_inj (m n : Nat) (h : Nat.repr m = Nat.repr n) : m = n := by
  rw [repr_eq_decDigits, repr_eq_decDigits] at h
  exact decDigits_inj m n (congrArg String.data h)

/-! Injectivity of the derived artifact names on {source, timestamp}, for the
two sources a run can produce. -/

theorem stem_inj (pre ext : String) (p q : Paper) (t s : Nat)
    (hp : p.source = "plos" ∨ p.source = "arxiv")
    (hq : q.source = "plos" ∨ q.source = "arxiv")
    (h : pre ++ p.source ++ "_" ++ Nat.repr t ++ ext
       = pre ++ q.source ++ "_" ++ Nat.repr s ++ ext) :
    p.source = q.source ∧ t = s := by
  have hd := congrArg String.data h
  simp only [String.data_append, List.append_assoc] at hd
  have hd2 := List.append_cancel_left hd
  have eplos : ("plos" : String).data = ['p', 'l', 'o', 's'] := rfl
  have earxiv : ("arxiv" : String).data = ['a', 'r', 'x', 'i', 'v'] := rfl
  rcases hp with hp | hp <;> rcases hq with hq | hq <;> rw [hp, hq] at hd2
  · refine ⟨by rw [hp, hq], ?_⟩
    have hd3 := List.append_cancel_left (List.append_cancel_left hd2)
    exact natRepr_inj t s (String.ext (List.append_cancel_right hd3))
  · exfalso
    rw [eplos, earxiv] at hd2
    simp only [List.cons_append] at hd2
    injection hd2 with hchar
    exact absurd hchar (by decide)
  · exfalso
    rw [eplos, earxiv] at hd2
    simp only [List.cons_append] at hd2
    injection hd2 with hchar
    exact absurd hchar (by decide)
  · refine ⟨by rw [hp, hq], ?_⟩
    have hd3 := List.append_cancel_left (List.append_cancel_left hd2)
    exact natRepr_inj t s (String.ext (List.append_cancel_right hd3))

theorem audioPathFor_inj (p q : Paper) (t s : Nat)
    (hp : p.source = "plos" ∨ p.source = "arxiv")
    (hq : q.source = "plos" ∨ q.source = "arxiv")
    (h : audioPathFor p t = audioPathFor q s) : p.source = q.source ∧ t = s :=
  stem_inj "output/audio/" ".mp3" p q t s hp hq h

theorem videoPathFor_inj (p q : Paper) (t s : Nat)
    (hp : p.source = "plos" ∨ p.source = "arxiv")
    (hq : q.source = "plos" ∨ q.source = "arxiv")
    (h : videoPathFor p t = videoPathFor q s) : p.source = q.source ∧ t = s :=
  stem_inj "output/video/" ".mp4" p q t s hp hq h

/-! Claim theorems. -/

/-- C2: for all connector results, the run's merged document sequence is
exactly the concatenation, in connector-registration order (PLOS first,
then arXiv), of each connector's result sequence with per-source order
preserved, and the report processes exactly that sequence. -/
theorem merged_is_ordered_concat (w : World) (q : String) (ps as : List Paper)
    (hp : search_plos (w.plos q) = some ps) (ha : search_arxiv (w.arxiv q) = some as) :
    mergedPapers w q = ps ++ as ∧
    (w.mkdirOk = true →
      process_query w q = Report.ok (ps.length + as.length) (processFrom w 0 (ps ++ as))) := by
  have hm : mergedPapers w q = ps ++ as := by
    unfold mergedPapers
    rw [hp, ha]
    rfl
  refine ⟨hm, fun hmk => ?_⟩
  simp [process_query, hmk, hm]

/-- Run for the C2 witness: PLOS yields two documents d1, d2 and arXiv one
document d3. -/
def runC2 : World where
  plos := fun _ => .success
    [{ title := some (Sum.inl "d1"), abstract := some "a1" },
     { title := some (Sum.inl "d2"), abstract := some "a2" }]
  arxiv := fun _ => .success [{ titleText := some "d3", summaryText := some "a3" }]
  summarizer := fun _ => some "short summary"
  audioOk := fun _ _ => true
  videoOk := fun _ _ _ => true
  clock := fun i => 100 + i
  mkdirOk := true
  mkdirErr := ""

/-- Witness for C2: given A → [d1, d2] and B → [d3], the merged sequence is
exactly [d1, d2, d3]. -/
theorem merged_is_ordered_concat_witness :
    search_plos (runC2.plos "graphene")
      = some [⟨"d1", "a1", "plos"⟩, ⟨"d2", "a2", "plos"⟩] ∧
    search_arxiv (runC2.arxiv "graphene") = some [⟨"d3", "a3", "arxiv"⟩] ∧
    (mergedPapers runC2 "graphene"
        = [⟨"d1", "a1", "plos"⟩, ⟨"d2", "a2", "plos"⟩] ++ [⟨"d3", "a3", "arxiv"⟩] ∧
     (runC2.mkdirOk = true →
      process_query runC2 "graphene"
        = Report.ok (2 + 1)
            (processFrom runC2 0
              ([⟨"d1", "a1", "plos"⟩, ⟨"d2", "a2", "plos"⟩] ++ [⟨"d3", "a3", "arxiv"⟩])))) :=
  ⟨by decide, by decide,
   merged_is_ordered_concat runC2 "graphene" _ _ (by decide) (by decide)⟩

/-- C3: when one connector fails entirely (the "no results" signal) the
other connector's documents are exactly the merged sequence, all of them
are processed, and the reported total counts exactly those documents. -/
theorem connector_failure_isolated (w : World) (q : String) (papers : List Paper)
    (hmk : w.mkdirOk = true)
    (h : (search_plos (w.plos q) = none ∧ search_arxiv (w.arxiv q) = some papers) ∨
         (search_plos (w.plos q) = some papers ∧ search_arxiv (w.arxiv q) = none)) :
    mergedPapers w q = papers ∧
    process_query w q = Report.ok papers.length (processFrom w 0 papers) ∧
    (processFrom w 0 papers).length = papers.length := by
  have hm : mergedPapers w q = papers := by
    rcases h with ⟨h1, h2⟩ | ⟨h1, h2⟩ <;> · unfold mergedPapers; rw [h1, h2]; simp
  exact ⟨hm, by simp [process_query, hmk, hm], processFrom_length w 0 papers⟩

/-- Run for the C3 witness: the PLOS request raises, arXiv yields three
documents. -/
def runC3 : World where
  plos := fun _ => .failure "connection refused"
  arxiv := fun _ => .success
    [{ titleText := some "t1", summaryText := some "s1" },
     { titleText := some "t2", summaryText := some "s2" },
     { titleText := some "t3", summaryText := some "s3" }]
  summarizer := fun _ => some "short summary"
  audioOk := fun _ _ => true
  videoOk := fun _ _ _ => true
  clock := fun i => 100 + i
  mkdirOk := true
  mkdirErr := ""

/-- Witness for C3: PLOS fails and arXiv returns 3 documents, so
total_documents = 3 and all three are processed. -/
theorem connector_failure_isolated_witness :
    runC3.mkdirOk = true ∧
    search_plos (runC3.plos "q") = none ∧
    search_arxiv (runC3.arxiv "q")
      = some [⟨"t1", "s1", "arxiv"⟩, ⟨"t2", "s2", "arxiv"⟩, ⟨"t3", "s3", "arxiv"⟩] ∧
    (mergedPapers runC3 "q"
        = [⟨"t1", "s1", "arxiv"⟩, ⟨"t2", "s2", "arxiv"⟩, ⟨"t3", "s3", "arxiv"⟩] ∧
     process_query runC3 "q"
        = Report.ok
            (([⟨"t1", "s1", "arxiv"⟩, ⟨"t2", "s2", "arxiv"⟩,
               ⟨"t3", "s3", "arxiv"⟩] : List Paper)).length
            (processFrom runC3 0
              [⟨"t1", "s1", "arxiv"⟩, ⟨"t2", "s2", "arxiv"⟩, ⟨"t3", "s3", "arxiv"⟩]) ∧
     (processFrom runC3 0
        [⟨"t1", "s1", "arxiv"⟩, ⟨"t2", "s2", "arxiv"⟩, ⟨"t3", "s3", "arxiv"⟩]).length
        = (([⟨"t1", "s1", "arxiv"⟩, ⟨"t2", "s2", "arxiv"⟩,
             ⟨"t3", "s3", "arxiv"⟩] : List Paper)).length) :=
  ⟨rfl, by decide, by decide,
   connector_failure_isolated runC3 "q" _ rfl (Or.inl ⟨by decide, by decide⟩)⟩

/-- C8: when every connector returns zero documents, `process_query`
returns the success report form with total 0 and an empty processed
sequence (not the error form). -/
theorem empty_connectors_ok (w : World) (q : String) (hmk : w.mkdirOk = true)
    (hp : search_plos (w.plos q) = some []) (ha : search_arxiv (w.arxiv q) = some []) :
    process_query w q = Report.ok 0 [] := by
  have hm : mergedPapers w q = [] := by
    unfold mergedPapers
    rw [hp, ha]
    rfl
  simp [process_query, hmk, hm, processFrom]

/-- Run for the C8 witness: both connectors succeed with zero documents. -/
def runC8 : World where
  plos := fun _ => .success []
  arxiv := fun _ => .success []
  summarizer := fun _ => some "short summary"
  audioOk := fun _ _ => true
  videoOk := fun _ _ _ => true
  clock := fun i => 100 + i
  mkdirOk := true
  mkdirErr := ""

/-- Witness for C8 at a concrete run with two empty result sets. -/
theorem empty_connectors_ok_witness :
    runC8.mkdirOk = true ∧
    search_plos (runC8.plos "q") = some [] ∧
    search_arxiv (runC8.arxiv "q") = some [] ∧
    process_query runC8 "q" = Report.ok 0 [] :=
  ⟨rfl, rfl, rfl, empty_connectors_ok runC8 "q" rfl rfl rfl⟩

/-- C4: a connector's search never propagates an exception — a transport or
body-parse failure is converted to the "no results" signal `none`, a raise
while handling any single record likewise aborts into `none`, and the
orchestrator treats `none` as zero documents to merge. -/
theorem connectors_never_raise (w : World) (q : String) :
    (∀ m, search_plos (HttpOutcome.failure m) = none) ∧
    (∀ m, search_arxiv (HttpOutcome.failure m) = none) ∧
    (∀ l a, a ∈ l → plosPaper a = none → search_plos (HttpOutcome.success l) = none) ∧
    (∀ l e, e ∈ l → arxivPaper e = none → search_arxiv (HttpOutcome.success l) = none) ∧
    (search_plos (w.plos q) = none →
      mergedPapers w q = (search_arxiv (w.arxiv q)).getD []) ∧
    (search_arxiv (w.arxiv q) = none →
      mergedPapers w q = (search_plos (w.plos q)).getD []) := by
  refine ⟨fun m => rfl, fun m => rfl, ?_, ?_, ?_, ?_⟩
  · exact fun l a ha hf => plosPapers_none_of_mem l a ha hf
  · exact fun l e he hf => arxivPapers_none_of_mem l e he hf
  · intro h
    unfold mergedPapers
    rw [h]
    rfl
  · intro h
    unfold mergedPapers
    rw [h]
    simp

/-- Run for the C4 witness: the PLOS request times out, arXiv succeeds. -/
def runC4 : World where
  plos := fun _ => .failure "timeout"
  arxiv := fun _ => .success [{ titleText := some "t1", summaryText := some "s1" }]
  summarizer := fun _ => some "short summary"
  audioOk := fun _ _ => true
  videoOk := fun _ _ _ => true
  clock := fun i => 100 + i
  mkdirOk := true
  mkdirErr := ""

/-- Witness for C4: a transport failure, a record whose title field is an
empty list (IndexError), and an entry without title text (AttributeError)
all become `none`, and the orchestrator merges `none` as zero documents. -/
theorem connectors_never_raise_witness :
    search_plos (HttpOutcome.failure "timeout") = none ∧
    search_arxiv (HttpOutcome.failure "timeout") = none ∧
    search_plos (HttpOutcome.success [{ title := some (Sum.inr []), abstract := none }])
      = none ∧
    search_arxiv (HttpOutcome.success [{ titleText := none, summaryText := some "s" }])
      = none ∧
    mergedPapers runC4 "q" = (search_arxiv (runC4.arxiv "q")).getD [] :=
  ⟨(connectors_never_raise runC4 "q").1 "timeout",
   (connectors_never_raise runC4 "q").2.1 "timeout",
   (connectors_never_raise runC4 "q").2.2.1 _ _ (List.mem_singleton.mpr rfl) rfl,
   (connectors_never_raise runC4 "q").2.2.2.1 _ _ (List.mem_singleton.mpr rfl) rfl,
   (connectors_never_raise runC4 "q").2.2.2.2.1 rfl⟩

/-- C1: on a non-empty merged sequence the report is the success form whose
processed sequence has exactly one entry per merged document, in merge
order; each entry is computed from its own document alone; when video
rendering fails for a document, that document's entry keeps its summary and
its audio reference and only its video reference is the empty sentinel; and
an entry never changes when the stage oracles' behaviour on that document's
own inputs is unchanged, whatever they do elsewhere. -/
theorem per_document_isolation (w : World) (q : String)
    (hmk : w.mkdirOk = true) (hne : mergedPapers w q ≠ []) :
    process_query w q
      = Report.ok (mergedPapers w q).length (processFrom w 0 (mergedPapers w q)) ∧
    (processFrom w 0 (mergedPapers w q)).length = (mergedPapers w q).length ∧
    (∀ k (hk : k < (mergedPapers w q).length)
        (hk2 : k < (processFrom w 0 (mergedPapers w q)).length),
      (processFrom w 0 (mergedPapers w q)).get ⟨k, hk2⟩
        = processPaper w k ((mergedPapers w q).get ⟨k, hk⟩)) ∧
    (∀ k (hk : k < (mergedPapers w q).length),
      w.videoOk (summarize_text w (fullText ((mergedPapers w q).get ⟨k, hk⟩)))
          (audioPathFor ((mergedPapers w q).get ⟨k, hk⟩) (w.clock k))
          (videoPathFor ((mergedPapers w q).get ⟨k, hk⟩) (w.clock k)) = false →
        processPaper w k ((mergedPapers w q).get ⟨k, hk⟩)
          = { title := ((mergedPapers w q).get ⟨k, hk⟩).title,
              source := ((mergedPapers w q).get ⟨k, hk⟩).source,
              summary := summarize_text w (fullText ((mergedPapers w q).get ⟨k, hk⟩)),
              audio_path := generate_audio w
                (summarize_text w (fullText ((mergedPapers w q).get ⟨k, hk⟩)))
                (audioPathFor ((mergedPapers w q).get ⟨k, hk⟩) (w.clock k)),
              video_path := "" }) ∧
    (∀ (v : World) (k : Nat) (p : Paper),
      v.clock k = w.clock k →
      v.summarizer (fullText p) = w.summarizer (fullText p) →
      (∀ b, v.audioOk (summarize_text w (fullText p)) b
            = w.audioOk (summarize_text w (fullText p)) b) →
      (∀ b c, v.videoOk (summarize_text w (fullText p)) b c
            = w.videoOk (summarize_text w (fullText p)) b c) →
      processPaper v k p = processPaper w k p) := by
  refine ⟨by simp [process_query, hmk], processFrom_length w 0 _, ?_, ?_, ?_⟩
  · intro k hk hk2
    simpa using processFrom_get w 0 (mergedPapers w q) k hk hk2
  · intro k hk hv
    simp only [List.get_eq_getElem] at hv
    simp [processPaper, generate_video, hv]
  · intro v k p h1 h2 h3 h4
    have hs : summarize_text v (fullText p) = summarize_text w (fullText p) := by
      simp [summarize_text, h2]
    simp only [processPaper, hs, h1, generate_audio, generate_video, h3, h4]

/-- Run for the C1 witness: three documents; video rendering fails exactly
for the second one (the derived path output/video/plos_101.mp4). -/
def runC1 : World where
  plos := fun _ => .success
    [{ title := some (Sum.inl "d1"), abstract := some "a1" },
     { title := some (Sum.inl "d2"), abstract := some "a2" }]
  arxiv := fun _ => .success [{ titleText := some "d3", summaryText := some "a3" }]
  summarizer := fun _ => some "short summary"
  audioOk := fun _ _ => true
  videoOk := fun _ _ vp => vp != "output/video/plos_101.mp4"
  clock := fun i => 100 + i
  mkdirOk := true
  mkdirErr := ""

/-- Witness for C1: the three-document run with a video failure on document
number 2 satisfies the isolation statement. -/
theorem per_document_isolation_witness :
    runC1.mkdirOk = true ∧ mergedPapers runC1 "q" ≠ [] ∧
    (process_query runC1 "q"
      = Report.ok (mergedPapers runC1 "q").length
          (processFrom runC1 0 (mergedPapers runC1 "q")) ∧
    (processFrom runC1 0 (mergedPapers runC1 "q")).length
      = (mergedPapers runC1 "q").length ∧
    (∀ k (hk : k < (mergedPapers runC1 "q").length)
        (hk2 : k < (processFrom runC1 0 (mergedPapers runC1 "q")).length),
      (processFrom runC1 0 (mergedPapers runC1 "q")).get ⟨k, hk2⟩
        = processPaper runC1 k ((mergedPapers runC1 "q").get ⟨k, hk⟩)) ∧
    (∀ k (hk : k < (mergedPapers runC1 "q").length),
      runC1.videoOk (summarize_text runC1 (fullText ((mergedPapers runC1 "q").get ⟨k, hk⟩)))
          (audioPathFor ((mergedPapers runC1 "q").get ⟨k, hk⟩) (runC1.clock k))
          (videoPathFor ((mergedPapers runC1 "q").get ⟨k, hk⟩) (runC1.clock k)) = false →
        processPaper runC1 k ((mergedPapers runC1 "q").get ⟨k, hk⟩)
          = { title := ((mergedPapers runC1 "q").get ⟨k, hk⟩).title,
              source := ((mergedPapers runC1 "q").get ⟨k, hk⟩).source,
              summary := summarize_text runC1
                (fullText ((mergedPapers runC1 "q").get ⟨k, hk⟩)),
              audio_path := generate_audio runC1
                (summarize_text runC1 (fullText ((mergedPapers runC1 "q").get ⟨k, hk⟩)))
                (audioPathFor ((mergedPapers runC1 "q").get ⟨k, hk⟩) (runC1.clock k)),
              video_path := "" }) ∧
    (∀ (v : World) (k : Nat) (p : Paper),
      v.clock k = runC1.clock k →
      v.summarizer (fullText p) = runC1.summarizer (fullText p) →
      (∀ b, v.audioOk (summarize_text runC1 (fullText p)) b
            = runC1.audioOk (summarize_text runC1 (fullText p)) b) →
      (∀ b c, v.videoOk (summarize_text runC1 (fullText p)) b c
            = runC1.videoOk (summarize_text runC1 (fullText p)) b c) →
      processPaper v k p = processPaper runC1 k p)) :=
  ⟨rfl, by decide, per_document_isolation runC1 "q" rfl (by decide)⟩

/-- Counterexample to C5: a PLOS record whose title field is present but
holds the empty string produces a Document whose title is the empty string,
not the placeholder and not a non-empty string. -/
theorem placeholder_only_on_absent_counterexample :
    search_plos (HttpOutcome.success [{ title := some (Sum.inl ""), abstract := none }])
      = some [{ title := "", abstract := "No abstract available", source := "plos" }] ∧
    ("" : String) ≠ "No title available" ∧ ("" : String).length = 0 :=
  ⟨by decide, by decide, rfl⟩

/-- C5 amended: the PLOS connector substitutes the fixed placeholders only
for an absent title or abstract field (so absence never yields an absent
value), but a present-and-empty field passes through as the empty string;
the arXiv connector substitutes no placeholder at all — a missing title or
summary makes the whole search return the no-results signal. -/
theorem placeholder_only_on_absent (articles : List PlosArticle) (papers : List Paper)
    (h : plosPapers articles = some papers) :
    papers.length = articles.length ∧
    (∀ k (hk : k < articles.length) (hk2 : k < papers.length),
      ((articles.get ⟨k, hk⟩).title = none →
        (papers.get ⟨k, hk2⟩).title = "No title available") ∧
      ((articles.get ⟨k, hk⟩).abstract = none →
        (papers.get ⟨k, hk2⟩).abstract = "No abstract available")) ∧
    (∀ (entries : List ArxivEntry) (e : ArxivEntry), e ∈ entries →
      e.titleText = none ∨ e.summaryText = none →
      search_arxiv (HttpOutcome.success entries) = none) := by
  refine ⟨plosPapers_length articles papers h, ?_, ?_⟩
  · intro k hk hk2
    have hg := plosPapers_get articles papers h k hk hk2
    simp only [List.get_eq_getElem] at hg ⊢
    constructor
    · intro ht
      simp only [plosPaper, plosTitle, ht, Option.getD_none, Option.bind_eq_bind,
        Option.some_bind, Option.pure_def, Option.some.injEq] at hg
      rw [← hg]
    · intro ha
      cases hpt : plosTitle (articles.get ⟨k, hk⟩) with
      | none =>
        simp only [List.get_eq_getElem] at hpt
        simp [plosPaper, hpt] at hg
      | some t =>
        simp only [List.get_eq_getElem] at hpt
        simp only [plosPaper, hpt, ha, Option.getD_none, Option.bind_eq_bind,
          Option.some_bind, Option.pure_def, Option.some.injEq] at hg
        rw [← hg]
  · intro entries e he hnone
    have hep : arxivPaper e = none := by
      rcases hnone with h1 | h1 <;> cases h2 : e.titleText <;>
        simp [arxivPaper, h1, h2] <;> simp [h1] at h2 ⊢
    exact arxivPapers_none_of_mem entries e he hep

/-- Witness for the amended C5: one record with both fields absent yields
the two placeholders, and one arXiv entry without a summary kills that
search. -/
theorem placeholder_only_on_absent_witness :
    plosPapers [{ title := none, abstract := none }]
      = some [{ title := "No title available", abstract := "No abstract available",
                source := "plos" }] ∧
    ([({ title := none, abstract := none } : PlosArticle)].get
        ⟨0, by decide⟩).title = none ∧
    (([{ title := "No title available", abstract := "No abstract available",
         source := "plos" }] : List Paper).get ⟨0, by decide⟩).title
      = "No title available" ∧
    search_arxiv (HttpOutcome.success [{ titleText := some "t", summaryText := none }])
      = none :=
  ⟨by decide, rfl,
   ((placeholder_only_on_absent [{ title := none, abstract := none }]
      [{ title := "No title available", abstract := "No abstract available",
         source := "plos" }] (by decide)).2.1 0 (by decide) (by decide)).1 rfl,
   (placeholder_only_on_absent [{ title := none, abstract := none }]
      [{ title := "No title available", abstract := "No abstract available",
         source := "plos" }] (by decide)).2.2
     [{ titleText := some "t", summaryText := none }] _
     (List.mem_singleton.mpr rfl) (Or.inr rfl)⟩

/-- Run for the C6 counterexample: two PLOS documents processed within the
same clock second. -/
def runC6x : World where
  plos := fun _ => .success
    [{ title := some (Sum.inl "d1"), abstract := some "a1" },
     { title := some (Sum.inl "d2"), abstract := some "a2" }]
  arxiv := fun _ => .success []
  summarizer := fun _ => some "short summary"
  audioOk := fun _ _ => true
  videoOk := fun _ _ _ => true
  clock := fun _ => 0
  mkdirOk := true
  mkdirErr := ""

/-- Counterexample to C6: two documents of the same source whose timestamp
captures fall in the same second are assigned the identical audio path and
the identical video path. -/
theorem artifact_paths_collide_counterexample :
    (processFrom runC6x 0 (mergedPapers runC6x "q")).map ProcessedPaper.audio_path
      = ["output/audio/plos_0.mp3", "output/audio/plos_0.mp3"] ∧
    (processFrom runC6x 0 (mergedPapers runC6x "q")).map ProcessedPaper.video_path
      = ["output/video/plos_0.mp4", "output/video/plos_0.mp4"] ∧
    audioPathFor ⟨"d1", "a1", "plos"⟩ (runC6x.clock 0)
      = audioPathFor ⟨"d2", "a2", "plos"⟩ (runC6x.clock 1) :=
  ⟨by decide, by decide, by decide⟩

/-- C6 amended: the derived artifact names of any two documents of a run
are distinct whenever the per-document timestamp captures are pairwise
distinct; with equal captures (same source, same second) they collide, as
the counterexample shows. -/
theorem artifact_paths_distinct (w : World) (q : String)
    (hclk : ∀ i j, i < (mergedPapers w q).length → j < (mergedPapers w q).length →
      i ≠ j → w.clock i ≠ w.clock j) :
    ∀ i j (hi : i < (mergedPapers w q).length) (hj : j < (mergedPapers w q).length),
      i ≠ j →
      audioPathFor ((mergedPapers w q).get ⟨i, hi⟩) (w.clock i)
        ≠ audioPathFor ((mergedPapers w q).get ⟨j, hj⟩) (w.clock j) ∧
      videoPathFor ((mergedPapers w q).get ⟨i, hi⟩) (w.clock i)
        ≠ videoPathFor ((mergedPapers w q).get ⟨j, hj⟩) (w.clock j) := by
  intro i j hi hj hij
  have hpi := mergedPapers_source w q _ (List.get_mem (mergedPapers w q) i hi)
  have hpj := mergedPapers_source w q _ (List.get_mem (mergedPapers w q) j hj)
  constructor
  · intro h
    exact hclk i j hi hj hij (audioPathFor_inj _ _ _ _ hpi hpj h).2
  · intro h
    exact hclk i j hi hj hij (videoPathFor_inj _ _ _ _ hpi hpj h).2

/-- Run for the C6 witness: three documents with a clock that advances
between iterations. -/
def runC6 : World where
  plos := fun _ => .success
    [{ title := some (Sum.inl "d1"), abstract := some "a1" },
     { title := some (Sum.inl "d2"), abstract := some "a2" }]
  arxiv := fun _ => .success [{ titleText := some "d3", summaryText := some "a3" }]
  summarizer := fun _ => some "short summary"
  audioOk := fun _ _ => true
  videoOk := fun _ _ _ => true
  clock := fun i => 100 + i
  mkdirOk := true
  mkdirErr := ""

/-- Witness for the amended C6 on a run whose three timestamp captures are
pairwise distinct. -/
theorem artifact_paths_distinct_witness :
    (∀ i j, i < (mergedPapers runC6 "q").length → j < (mergedPapers runC6 "q").length →
      i ≠ j → runC6.clock i ≠ runC6.clock j) ∧
    (∀ i j (hi : i < (mergedPapers runC6 "q").length)
        (hj : j < (mergedPapers runC6 "q").length),
      i ≠ j →
      audioPathFor ((mergedPapers runC6 "q").get ⟨i, hi⟩) (runC6.clock i)
        ≠ audioPathFor ((mergedPapers runC6 "q").get ⟨j, hj⟩) (runC6.clock j) ∧
      videoPathFor ((mergedPapers runC6 "q").get ⟨i, hi⟩) (runC6.clock i)
        ≠ videoPathFor ((mergedPapers runC6 "q").get ⟨j, hj⟩) (runC6.clock j)) :=
  ⟨fun i j _ _ hij h => hij (by
      have h2 : 100 + i = 100 + j := h
      omega),
   artifact_paths_distinct runC6 "q" (fun i j _ _ hij h => hij (by
      have h2 : 100 + i = 100 + j := h
      omega))⟩

/-- Run for the C7 counterexample: gTTS always fails; moviepy succeeds
exactly when its audio-path argument is the empty sentinel. -/
def runC7 : World where
  plos := fun _ => .success [{ title := some (Sum.inl "t"), abstract := some "a" }]
  arxiv := fun _ => .success []
  summarizer := fun _ => some "short summary"
  audioOk := fun _ _ => false
  videoOk := fun _ ap _ => ap == ""
  clock := fun _ => 0
  mkdirOk := true
  mkdirErr := ""

/-- Paper processed in the C7 run. -/
def paperC7 : Paper := { title := "t", abstract := "a", source := "plos" }

/-- Counterexample to C7: audio rendering fails and returns the sentinel;
had video rendering been handed that sentinel, this run's video oracle
would have succeeded and recorded the derived video path — but the entry's
video reference is empty, because the code hands video rendering the
derived audio path, not the audio stage's result. -/
theorem video_gets_derived_path_counterexample :
    (processPaper runC7 0 paperC7).audio_path = "" ∧
    runC7.videoOk (summarize_text runC7 (fullText paperC7)) ""
      (videoPathFor paperC7 (runC7.clock 0)) = true ∧
    generate_video runC7 (summarize_text runC7 (fullText paperC7)) ""
      (videoPathFor paperC7 (runC7.clock 0)) = videoPathFor paperC7 (runC7.clock 0) ∧
    videoPathFor paperC7 (runC7.clock 0) ≠ "" ∧
    (processPaper runC7 0 paperC7).video_path = "" :=
  ⟨by decide, by decide, by decide, by decide, by decide⟩

/-- C7 amended: video rendering is invoked for every document regardless of
whether audio rendering reported success, but its audio-path argument is
the derived audio path passed through unchanged — not the audio stage's
result — so a failed audio render hands video rendering the derived path of
a file that was never written, and video rendering's own failure handling
decides the outcome. -/
theorem video_gets_derived_path (w : World) (i : Nat) (p : Paper) :
    (processPaper w i p).video_path
      = generate_video w (summarize_text w (fullText p))
          (audioPathFor p (w.clock i)) (videoPathFor p (w.clock i)) ∧
    (∀ v : World, v.clock i = w.clock i →
      v.summarizer (fullText p) = w.summarizer (fullText p) →
      (∀ b c, v.videoOk (summarize_text w (fullText p)) b c
            = w.videoOk (summarize_text w (fullText p)) b c) →
      (processPaper v i p).video_path = (processPaper w i p).video_path) := by
  constructor
  · rfl
  · intro v h1 h2 h3
    have hs : summarize_text v (fullText p) = summarize_text w (fullText p) := by
      simp [summarize_text, h2]
    simp only [processPaper, generate_video, hs, h1, h3]

/-- Witness for the amended C7: in the C7 run (audio always failing), the
recorded video reference equals the video render of the derived audio path,
and it is unchanged under any behaviour of the audio oracle. -/
theorem video_gets_derived_path_witness :
    ((processPaper runC7 0 paperC7).video_path
      = generate_video runC7 (summarize_text runC7 (fullText paperC7))
          (audioPathFor paperC7 (runC7.clock 0)) (videoPathFor paperC7 (runC7.clock 0)) ∧
    (∀ v : World, v.clock 0 = runC7.clock 0 →
      v.summarizer (fullText paperC7) = runC7.summarizer (fullText paperC7) →
      (∀ b c, v.videoOk (summarize_text runC7 (fullText paperC7)) b c
            = runC7.videoOk (summarize_text runC7 (fullText paperC7)) b c) →
      (processPaper v 0 paperC7).video_path = (processPaper runC7 0 paperC7).video_path)) :=
  video_gets_derived_path runC7 0 paperC7

/-- Stem sharing as C9 states it: the audio and video references consist of
the identical source_timestamp stem, differing only in directory and
extension. -/
def sharesStem (a v : String) : Prop :=
  ∃ stem, a = "output/audio/" ++ stem ++ ".mp3" ∧ v = "output/video/" ++ stem ++ ".mp4"

/-- Derived audio paths are never the empty string. -/
theorem audioPathFor_ne_empty (p : Paper) (t : Nat) : audioPathFor p t ≠ "" := by
  intro h
  have hl := congrArg String.length h
  rw [audioPathFor, String.length_append, String.length_append, String.length_append,
    String.length_append] at hl
  have h13 : ("output/audio/" : String).length = 13 := rfl
  have h4 : (".mp3" : String).length = 4 := rfl
  have h0 : ("" : String).length = 0 := rfl
  omega

/-- Derived video paths are never the empty string. -/
theorem videoPathFor_ne_empty (p : Paper) (t : Nat) : videoPathFor p t ≠ "" := by
  intro h
  have hl := congrArg String.length h
  rw [videoPathFor, String.length_append, String.length_append, String.length_append,
    String.length_append] at hl
  have h13 : ("output/video/" : String).length = 13 := rfl
  have h4 : (".mp4" : String).length = 4 := rfl
  have h0 : ("" : String).length = 0 := rfl
  omega

/-- Run for the C9 counterexample: gTTS fails, moviepy succeeds. -/
def runC9 : World where
  plos := fun _ => .success [{ title := some (Sum.inl "t"), abstract := some "a" }]
  arxiv := fun _ => .success []
  summarizer := fun _ => some "short summary"
  audioOk := fun _ _ => false
  videoOk := fun _ _ _ => true
  clock := fun _ => 0
  mkdirOk := true
  mkdirErr := ""

/-- Paper processed in the C9 runs. -/
def paperC9 : Paper := { title := "t", abstract := "a", source := "plos" }

/-- Counterexample to C9: when audio rendering fails, the entry's
audio_path is the empty sentinel while its video_path is the derived path,
so the two recorded fields do not share the source_timestamp stem. -/
theorem shared_stem_counterexample :
    (processPaper runC9 0 paperC9).audio_path = "" ∧
    (processPaper runC9 0 paperC9).video_path = "output/video/plos_0.mp4" ∧
    ¬ sharesStem (processPaper runC9 0 paperC9).audio_path
        (processPaper runC9 0 paperC9).video_path := by
  refine ⟨by decide, by decide, ?_⟩
  rintro ⟨stem, ha, -⟩
  have h0 : (processPaper runC9 0 paperC9).audio_path = "" := by decide
  rw [h0] at ha
  have hl := congrArg String.length ha
  rw [String.length_append, String.length_append] at hl
  have h13 : ("output/audio/" : String).length = 13 := rfl
  have h4 : (".mp3" : String).length = 4 := rfl
  have he : ("" : String).length = 0 := rfl
  omega

/-- C9 amended: both derived artifact paths of a document are built from
the single timestamp captured for it before either render, so they always
share the source_timestamp stem; the recorded fields share that stem
whenever both renders succeed, but a failed stage records the empty
sentinel instead, which carries no stem. -/
theorem shared_stem_on_success (w : World) (i : Nat) (p : Paper) :
    (audioPathFor p (w.clock i)
       = "output/audio/" ++ (p.source ++ "_" ++ Nat.repr (w.clock i)) ++ ".mp3" ∧
     videoPathFor p (w.clock i)
       = "output/video/" ++ (p.source ++ "_" ++ Nat.repr (w.clock i)) ++ ".mp4") ∧
    (w.audioOk (summarize_text w (fullText p)) (audioPathFor p (w.clock i)) = true →
     w.videoOk (summarize_text w (fullText p)) (audioPathFor p (w.clock i))
        (videoPathFor p (w.clock i)) = true →
     sharesStem (processPaper w i p).audio_path (processPaper w i p).video_path) := by
  refine ⟨⟨?_, ?_⟩, ?_⟩
  · rw [audioPathFor]
    apply String.ext
    simp
  · rw [videoPathFor]
    apply String.ext
    simp
  · intro ha hv
    refine ⟨p.source ++ "_" ++ Nat.repr (w.clock i), ?_, ?_⟩
    · show generate_audio w (summarize_text w (fullText p)) (audioPathFor p (w.clock i)) = _
      rw [generate_audio, if_pos ha, audioPathFor]
      apply String.ext
      simp
    · show generate_video w (summarize_text w (fullText p)) (audioPathFor p (w.clock i))
        (videoPathFor p (w.clock i)) = _
      rw [generate_video, if_pos hv, videoPathFor]
      apply String.ext
      simp

/-- Run for the C9 witness: every stage succeeds. -/
def runC9ok : World where
  plos := fun _ => .success [{ title := some (Sum.inl "t"), abstract := some "a" }]
  arxiv := fun _ => .success []
  summarizer := fun _ => some "short summary"
  audioOk := fun _ _ => true
  videoOk := fun _ _ _ => true
  clock := fun _ => 0
  mkdirOk := true
  mkdirErr := ""

/-- Witness for the amended C9 on a run where both renders succeed. -/
theorem shared_stem_on_success_witness :
    runC9ok.audioOk (summarize_text runC9ok (fullText paperC9))
      (audioPathFor paperC9 (runC9ok.clock 0)) = true ∧
    runC9ok.videoOk (summarize_text runC9ok (fullText paperC9))
      (audioPathFor paperC9 (runC9ok.clock 0)) (videoPathFor paperC9 (runC9ok.clock 0))
      = true ∧
    ((audioPathFor paperC9 (runC9ok.clock 0)
       = "output/audio/" ++ (paperC9.source ++ "_" ++ Nat.repr (runC9ok.clock 0)) ++ ".mp3" ∧
     videoPathFor paperC9 (runC9ok.clock 0)
       = "output/video/" ++ (paperC9.source ++ "_" ++ Nat.repr (runC9ok.clock 0)) ++ ".mp4") ∧
    sharesStem (processPaper runC9ok 0 paperC9).audio_path
      (processPaper runC9ok 0 paperC9).video_path) :=
  ⟨rfl, rfl,
   ⟨(shared_stem_on_success runC9ok 0 paperC9).1,
    (shared_stem_on_success runC9ok 0 paperC9).2 rfl rfl⟩⟩

/-- Run for the C10 counterexample: the summarizer succeeds but returns the
empty string. -/
def runC10 : World where
  plos := fun _ => .success [{ title := some (Sum.inl "t"), abstract := some "a" }]
  arxiv := fun _ => .success []
  summarizer := fun _ => some ""
  audioOk := fun _ _ => true
  videoOk := fun _ _ _ => true
  clock := fun _ => 0
  mkdirOk := true
  mkdirErr := ""

/-- Paper processed in the C10 runs. -/
def paperC10 : Paper := { title := "t", abstract := "a", source := "plos" }

/-- Counterexample to C10: the summarizer call succeeds (no raise) yet the
recorded summary field is the empty string, so an empty summary field does
not precisely signal a stage failure. -/
theorem empty_sentinel_counterexample :
    runC10.summarizer (fullText paperC10) = some "" ∧
    summarize_text runC10 (fullText paperC10) = "" ∧
    (processPaper runC10 0 paperC10).summary = "" :=
  ⟨rfl, rfl, rfl⟩

/-- C10 amended: each stage returns exactly the empty string — never an
absent value — when its internal operation raises, so every entry's
summary, audio_path and video_path are always present strings; within a
run, emptiness of audio_path and of video_path characterises those stages'
failure exactly (derived paths are never empty), while an empty summary
arises both from a summarizer failure and from a successful empty
summarization. -/
theorem empty_string_failure_sentinel (w : World) (t a v : String) (i : Nat) (p : Paper) :
    (w.summarizer t = none → summarize_text w t = "") ∧
    (w.audioOk t a = false → generate_audio w t a = "") ∧
    (w.videoOk t a v = false → generate_video w t a v = "") ∧
    (w.audioOk t a = true → generate_audio w t a = a) ∧
    (w.videoOk t a v = true → generate_video w t a v = v) ∧
    ((processPaper w i p).audio_path = "" ↔
      w.audioOk (summarize_text w (fullText p)) (audioPathFor p (w.clock i)) = false) ∧
    ((processPaper w i p).video_path = "" ↔
      w.videoOk (summarize_text w (fullText p)) (audioPathFor p (w.clock i))
        (videoPathFor p (w.clock i)) = false) := by
  refine ⟨?_, ?_, ?_, ?_, ?_, ?_, ?_⟩
  · intro h; simp [summarize_text, h]
  · intro h; simp [generate_audio, h]
  · intro h; simp [generate_video, h]
  · intro h; simp [generate_audio, h]
  · intro h; simp [generate_video, h]
  · show generate_audio w (summarize_text w (fullText p)) (audioPathFor p (w.clock i))
        = "" ↔ _
    rw [generate_audio]
    cases hb : w.audioOk (summarize_text w (fullText p)) (audioPathFor p (w.clock i)) <;>
      simp [audioPathFor_ne_empty]
  · show generate_video w (summarize_text w (fullText p)) (audioPathFor p (w.clock i))
        (videoPathFor p (w.clock i)) = "" ↔ _
    rw [generate_video]
    cases hb : w.videoOk (summarize_text w (fullText p)) (audioPathFor p (w.clock i))
        (videoPathFor p (w.clock i)) <;>
      simp [videoPathFor_ne_empty]

/-- Run for the C10 witness: the summarizer raises, gTTS succeeds, moviepy
fails. -/
def runC10w : World where
  plos := fun _ => .success [{ title := some (Sum.inl "t"), abstract := some "a" }]
  arxiv := fun _ => .success []
  summarizer := fun _ => none
  audioOk := fun _ _ => true
  videoOk := fun _ _ _ => false
  clock := fun _ => 0
  mkdirOk := true
  mkdirErr := ""

/-- Witness for the amended C10 on a run with a raising summarizer and a
failing video render. -/
theorem empty_string_failure_sentinel_witness :
    runC10w.summarizer "some text" = none ∧
    summarize_text runC10w "some text" = "" ∧
    ((processPaper runC10w 0 paperC10).audio_path = "" ↔
      runC10w.audioOk (summarize_text runC10w (fullText paperC10))
        (audioPathFor paperC10 (runC10w.clock 0)) = false) ∧
    ((processPaper runC10w 0 paperC10).video_path = "" ↔
      runC10w.videoOk (summarize_text runC10w (fullText paperC10))
        (audioPathFor paperC10 (runC10w.clock 0))
        (videoPathFor paperC10 (runC10w.clock 0)) = false) :=
  ⟨rfl,
   (empty_string_failure_sentinel runC10w "some text" "" "" 0 paperC10).1 rfl,
   (empty_string_failure_sentinel runC10w "some text" "" "" 0 paperC10).2.2.2.2.2.1,
   (empty_string_failure_sentinel runC10w "some text" "" "" 0 paperC10).2.2.2.2.2.2⟩

end ResearchPipeline
